import Mathlib

/-
Verification of the super-activity-view daemon (src/super_activity_daemon.py)
against its natural-language specification.

Shallow embedding conventions:
* Python floats used for timestamps and the tap timeout are modelled as
  rationals (ℚ); the claims only use ordering and subtraction.
* evdev numeric constants keep their kernel values.
* `time.time()` is an effect; `handle_event` therefore receives the clock
  reading for the event as an explicit parameter.
* Exceptions that the code catches are modelled with Option / explicit
  failure flags.
-/

namespace SuperActivityDaemon

/-! ## evdev constants (values from the Linux input headers / evdev.ecodes) -/

def EV_KEY : Nat := 1
def EV_REL : Nat := 2
def KEY_LEFTCTRL : Nat := 29
def KEY_A : Nat := 30
def KEY_SPACE : Nat := 57
def KEY_RIGHTCTRL : Nat := 97
def KEY_LEFTMETA : Nat := 125
def KEY_RIGHTMETA : Nat := 126
def REL_HWHEEL : Nat := 6
def REL_WHEEL : Nat := 8
def BUS_VIRTUAL : Nat := 6

/-! ## Configuration loading (`load_config`, lines 105-140) -/

/-- `KEY_MAP` from the daemon source (lines 67-72): key name → evdev code. -/
def KEY_MAP (s : String) : Option Nat :=
  if s = "KEY_LEFTMETA" then some KEY_LEFTMETA
  else if s = "KEY_RIGHTMETA" then some KEY_RIGHTMETA
  else if s = "KEY_LEFTCTRL" then some KEY_LEFTCTRL
  else if s = "KEY_RIGHTCTRL" then some KEY_RIGHTCTRL
  else none

def DEFAULT_TAP_TIMEOUT : ℚ := 1/2

/-- The observable content of the configuration file consumed by
`load_config`: absent, unreadable (PermissionError / JSONDecodeError), or a
parsed JSON object whose three relevant fields may each be present or
missing. -/
inductive ConfigFile
  | absent
  | unreadable
  | parsed (trigger_key : Option String) (injection_key : Option String)
      (tap_timeout : Option ℚ)

/-- The configuration snapshot produced by `load_config`: `SUPER_KEYS`
(singleton set of the trigger key code), `TRIGGER_KEYS` (injection key
codes, a singleton list), and `tap_timeout`. -/
structure Config where
  superKeys : List Nat
  triggerKeys : List Nat
  tap_timeout : ℚ
  deriving DecidableEq

/-- `SuperActivityDaemon.load_config` (lines 105-140).  `config.get(k, d)`
is `Option.getD`; an unreadable file leaves all defaults in place (the
exception fires before any assignment); unknown key names fall back through
`KEY_MAP.get(name, default)`. -/
def load_config (cf : ConfigFile) : Config :=
  let trigger_key :=
    match cf with
    | .parsed t _ _ => t.getD "KEY_LEFTMETA"
    | _ => "KEY_LEFTMETA"
  let injection_key :=
    match cf with
    | .parsed _ i _ => i.getD "KEY_LEFTCTRL"
    | _ => "KEY_LEFTCTRL"
  let tt :=
    match cf with
    | .parsed _ _ o => o.getD DEFAULT_TAP_TIMEOUT
    | _ => DEFAULT_TAP_TIMEOUT
  { superKeys := [(KEY_MAP trigger_key).getD KEY_LEFTMETA]
    triggerKeys := [(KEY_MAP injection_key).getD KEY_LEFTCTRL]
    tap_timeout := tt }

/-- The `tap_timeout` value the configuration file supplies, if any. -/
def suppliedTapTimeout : ConfigFile → Option ℚ
  | .parsed _ _ o => o
  | _ => none

/-! ## Tap detector state machine (`handle_event`, lines 223-265) -/

/-- One decoded evdev input event: `(event.type, event.code, event.value)`. -/
structure InputEvent where
  etype : Nat
  code : Nat
  value : Int
  deriving DecidableEq

/-- The tap-detector state held on the daemon object: `super_pressed`,
`super_press_time`, `other_key_pressed` (lines 85-87). -/
structure DaemonState where
  super_pressed : Bool
  super_press_time : ℚ
  other_key_pressed : Bool
  deriving DecidableEq

/-- Daemon state after `__init__` (lines 85-87). -/
def initState : DaemonState :=
  { super_pressed := false, super_press_time := 0, other_key_pressed := false }

/-- `SuperActivityDaemon.handle_event` (lines 223-265).  `now` is the value
`time.time()` returns while this event is processed.  The returned Bool is
true exactly when the clean-tap branch runs, i.e. when
`trigger_activity_view` is awaited (line 245). -/
def handle_event (cfg : Config) (now : ℚ) (s : DaemonState) (e : InputEvent) :
    DaemonState × Bool :=
  if e.etype = EV_KEY then
    if e.code ∈ cfg.superKeys then
      if e.value = 1 then
        ({ super_pressed := true, super_press_time := now,
           other_key_pressed := false }, false)
      else if e.value = 0 then
        if s.super_pressed = true then
          ({ super_pressed := false, super_press_time := s.super_press_time,
             other_key_pressed := false },
           !s.other_key_pressed && decide (now - s.super_press_time < cfg.tap_timeout))
        else (s, false)
      else (s, false)
    else
      if s.super_pressed = true then
        if e.value = 1 then ({ s with other_key_pressed := true }, false)
        else (s, false)
      else (s, false)
  else if e.etype = EV_REL ∧ s.super_pressed = true then
    if e.code = REL_WHEEL ∨ e.code = REL_HWHEEL then
      if e.value ≠ 0 then ({ s with other_key_pressed := true }, false)
      else (s, false)
    else (s, false)
  else (s, false)

/-- A timestamped event: the clock reading at processing time, paired with
the event. -/
abbrev Timed := ℚ × InputEvent

def stepState (cfg : Config) (s : DaemonState) (te : Timed) : DaemonState :=
  (handle_event cfg te.1 s te.2).1

/-- State after the detector has processed a whole timestamped trace. -/
def runState (cfg : Config) (s : DaemonState) (tr : List Timed) : DaemonState :=
  tr.foldl (stepState cfg) s

/-- Event classification: a trigger-key press edge (value 1). -/
def isTriggerPress (cfg : Config) (e : InputEvent) : Bool :=
  decide (e.etype = EV_KEY ∧ e.code ∈ cfg.superKeys ∧ e.value = 1)

/-- Event classification: a trigger-key release (value 0). -/
def isTriggerRelease (cfg : Config) (e : InputEvent) : Bool :=
  decide (e.etype = EV_KEY ∧ e.code ∈ cfg.superKeys ∧ e.value = 0)

/-- Event classification: an interfering event — a press (value 1) of any
other key or button, or a wheel event with non-zero delta. -/
def isInterfering (cfg : Config) (e : InputEvent) : Bool :=
  decide ((e.etype = EV_KEY ∧ e.code ∉ cfg.superKeys ∧ e.value = 1) ∨
    (e.etype = EV_REL ∧ (e.code = REL_WHEEL ∨ e.code = REL_HWHEEL) ∧ e.value ≠ 0))

/-! ## Device classifier (`is_valid_device`, lines 142-173) -/

/-- `device.info` — only the bus type matters to the classifier. -/
structure DeviceInfo where
  bustype : Nat
  deriving DecidableEq

/-- The metadata of an evdev device handle that the classifier queries.
`hasEvKey` / `keyCaps` model `caps[ecodes.EV_KEY]`, `hasEvRel` models
`ecodes.EV_REL in caps`, and `queryFails` models a PermissionError/OSError
raised while the device is being queried. -/
structure Device where
  name : String
  info : DeviceInfo
  hasEvKey : Bool
  keyCaps : List Nat
  hasEvRel : Bool
  queryFails : Bool
  deriving DecidableEq

/-- The Python test `"Tiling Shell Proxy Device" in name`. -/
def containsProxy (name : String) : Bool :=
  decide (List.IsInfix ("Tiling Shell Proxy Device").toList name.toList)

/-- `SuperActivityDaemon.is_valid_device` (lines 142-173): a pure predicate
over device metadata; any query error yields `false` (the `except` arm). -/
def is_valid_device (d : Device) : Bool :=
  if d.queryFails then false
  else if d.name = "Super Activity Daemon" then false
  else if containsProxy d.name then false
  else if d.info.bustype = BUS_VIRTUAL then false
  else
    let is_keyboard := d.hasEvKey && d.keyCaps.contains KEY_A &&
      d.keyCaps.contains KEY_SPACE
    let is_mouse := d.hasEvRel
    is_keyboard || is_mouse

/-! ## Device table (`add_device`, lines 286-302) -/

/-- The daemon's device bookkeeping: `self.devices` (path → handle),
`self.device_tasks` (path → monitor task, tasks numbered by creation
order). -/
structure DevTable where
  devices : List (String × Device)
  device_tasks : List (String × Nat)
  nextTask : Nat
  deriving DecidableEq

/-- `SuperActivityDaemon.add_device` (lines 286-302).  `openDev` models
`evdev.InputDevice(path)`, returning `none` when it raises
(PermissionError / OSError / FileNotFoundError, all caught and ignored);
an invalid device is closed and nothing changes. -/
def add_device (openDev : String → Option Device) (st : DevTable)
    (path : String) : DevTable :=
  if path ∈ st.devices.map Prod.fst then st
  else
    match openDev path with
    | none => st
    | some d =>
      if is_valid_device d then
        { devices := st.devices ++ [(path, d)]
          device_tasks := st.device_tasks ++ [(path, st.nextTask)]
          nextTask := st.nextTask + 1 }
      else st

/-! ## Virtual injector (`trigger_activity_view`, lines 206-221) -/

/-- One write to the virtual uinput device. -/
inductive InjAction
  | keyDown (code : Nat)
  | keyUp (code : Nat)
  | syn
  deriving DecidableEq

/-- `SuperActivityDaemon.trigger_activity_view` (lines 206-221), as the list
of events it emits.  `ui` is the `UInput` handle: `none` when creation
failed in `__init__` (the `except` arm of lines 98-103), in which case the
method returns at once (lines 208-209). -/
def trigger_activity_view (ui : Option Unit) (triggerKeys : List Nat) :
    List InjAction :=
  match ui with
  | none => []
  | some _ =>
    (triggerKeys.map InjAction.keyDown) ++ [InjAction.syn] ++
      ((triggerKeys.reverse).map InjAction.keyUp) ++ [InjAction.syn]

/-- One full daemon step on an event: the detector transition, whether a
clean tap was confirmed (and logged), and the events the injector emits. -/
def daemonStep (cfg : Config) (ui : Option Unit) (now : ℚ) (s : DaemonState)
    (e : InputEvent) : DaemonState × Bool × List InjAction :=
  let r := handle_event cfg now s e
  (r.1, r.2, if r.2 then trigger_activity_view ui cfg.triggerKeys else [])

/-! ## Concrete values for witnesses and counterexamples -/

/-- The configuration produced by `load_config` when no file is found. -/
def stdCfg : Config :=
  { superKeys := [KEY_LEFTMETA], triggerKeys := [KEY_LEFTCTRL],
    tap_timeout := 1/2 }

def superPress : InputEvent := { etype := EV_KEY, code := KEY_LEFTMETA, value := 1 }
def superRepeat : InputEvent := { etype := EV_KEY, code := KEY_LEFTMETA, value := 2 }
def superRelease : InputEvent := { etype := EV_KEY, code := KEY_LEFTMETA, value := 0 }
def aPress : InputEvent := { etype := EV_KEY, code := KEY_A, value := 1 }
def aRelease : InputEvent := { etype := EV_KEY, code := KEY_A, value := 0 }

/-! ## Case lemmas for `handle_event` -/

/-- A trigger-key press edge starts (or restarts) a session: timestamp set
to now, interference flag cleared, no injection. -/
theorem handle_event_press (cfg : Config) (now : ℚ) (s : DaemonState)
    (e : InputEvent) (h : isTriggerPress cfg e = true) :
    handle_event cfg now s e =
      ({ super_pressed := true, super_press_time := now,
         other_key_pressed := false }, false) := by
  simp only [isTriggerPress, decide_eq_true_eq] at h
  obtain ⟨h1, h2, h3⟩ := h
  simp [handle_event, h1, h2, h3]

/-- A trigger-key release while the trigger is down ends the session; the
injection decision is exactly `flag clear ∧ elapsed < timeout`. -/
theorem handle_event_release_down (cfg : Config) (now : ℚ) (s : DaemonState)
    (e : InputEvent) (h : isTriggerRelease cfg e = true)
    (hs : s.super_pressed = true) :
    handle_event cfg now s e =
      ({ super_pressed := false, super_press_time := s.super_press_time,
         other_key_pressed := false },
       !s.other_key_pressed && decide (now - s.super_press_time < cfg.tap_timeout)) := by
  simp only [isTriggerRelease, decide_eq_true_eq] at h
  obtain ⟨h1, h2, h3⟩ := h
  simp [handle_event, h1, h2, h3, hs]

/-- A spurious trigger-key release while already idle is a no-op. -/
theorem handle_event_release_idle (cfg : Config) (now : ℚ) (s : DaemonState)
    (e : InputEvent) (h : isTriggerRelease cfg e = true)
    (hs : s.super_pressed = false) :
    handle_event cfg now s e = (s, false) := by
  simp only [isTriggerRelease, decide_eq_true_eq] at h
  obtain ⟨h1, h2, h3⟩ := h
  simp [handle_event, h1, h2, h3, hs]

/-- Any event that is neither a trigger-key press nor a trigger-key release
leaves `super_pressed` and the timestamp unchanged and or-accumulates the
interference flag. -/
theorem handle_event_other (cfg : Config) (now : ℚ) (s : DaemonState)
    (e : InputEvent) (hp : isTriggerPress cfg e = false)
    (hr : isTriggerRelease cfg e = false) :
    handle_event cfg now s e =
      ({ s with other_key_pressed :=
          s.other_key_pressed || (s.super_pressed && isInterfering cfg e) }, false) := by
  simp only [isTriggerPress, isTriggerRelease, decide_eq_false_iff_not] at hp hr
  obtain ⟨et, c, v⟩ := e
  obtain ⟨sp, pt, ok⟩ := s
  simp only [handle_event, isInterfering]
  split_ifs with h1 h2 h3 h4 h5 h6 h7 h8 h9 h10 <;>
    simp_all [EV_KEY, EV_REL]
  intros
  simp_all

/-! ## Session structure of a trace -/

theorem runState_append (cfg : Config) (s : DaemonState) (tr : List Timed)
    (x : Timed) :
    runState cfg s (tr ++ [x]) = stepState cfg (runState cfg s tr) x := by
  simp [runState, List.foldl_append]

/-- Splitting a snoc-trace `tr ++ [x]` written as `ys ++ e :: zs`: either
`e` is the final element `x`, or `x` is the last element of `zs`. -/
theorem append_singleton_split {α : Type} {tr ys zs : List α} {x e : α}
    (h : tr ++ [x] = ys ++ e :: zs) :
    (ys = tr ∧ e = x ∧ zs = []) ∨
      (∃ zs', zs = zs' ++ [x] ∧ tr = ys ++ e :: zs') := by
  rcases List.eq_nil_or_concat zs with hz | ⟨zs', z, hz⟩
  · subst hz
    obtain ⟨h1, h2⟩ := List.append_inj' h rfl
    exact Or.inl ⟨h1.symm, (List.cons_eq_cons.mp h2.symm).1, rfl⟩
  · subst hz
    simp only [List.concat_eq_append] at h ⊢
    rw [show ys ++ e :: (zs' ++ [z]) = (ys ++ e :: zs') ++ [z] by simp] at h
    obtain ⟨h1, h2⟩ := List.append_inj' h rfl
    obtain rfl : x = z := (List.cons_eq_cons.mp h2).1
    exact Or.inr ⟨zs', rfl, h1⟩

/-- `tr` ends in an open tap session: its last trigger-key press/release
event is a press, recorded at clock reading `tp`, and `zs` is everything
observed after that press. -/
def OpenSession (cfg : Config) (tr : List Timed) (tp : ℚ) (zs : List Timed) :
    Prop :=
  ∃ ys e, tr = ys ++ (tp, e) :: zs ∧ isTriggerPress cfg e = true ∧
    ∀ p ∈ zs, isTriggerPress cfg p.2 = false ∧ isTriggerRelease cfg p.2 = false

/-- The detector-state invariant: `super_pressed` is set exactly when the
trace ends in an open session, and in that case the recorded timestamp is
the session's press time and the interference flag records whether any
interfering event was seen after the press. -/
def Inv (cfg : Config) (tr : List Timed) (s : DaemonState) : Prop :=
  (s.super_pressed = true ↔ ∃ tp zs, OpenSession cfg tr tp zs) ∧
  (∀ tp zs, OpenSession cfg tr tp zs →
    s.super_pressed = true ∧ s.super_press_time = tp ∧
    s.other_key_pressed = zs.any (fun p => isInterfering cfg p.2))

theorem inv_nil (cfg : Config) : Inv cfg [] initState := by
  constructor
  · simp only [initState, Bool.false_eq_true, false_iff]
    rintro ⟨tp, zs, ys, e, heq, -⟩
    exact (List.append_ne_nil_of_right_ne_nil ys (List.cons_ne_nil _ _)) heq.symm
  · rintro tp zs ⟨ys, e, heq, -⟩
    exact absurd heq.symm (List.append_ne_nil_of_right_ne_nil ys (List.cons_ne_nil _ _))

theorem inv_step (cfg : Config) (tr : List Timed) (s : DaemonState)
    (tx : ℚ) (ex : InputEvent) (h : Inv cfg tr s) :
    Inv cfg (tr ++ [(tx, ex)]) (stepState cfg s (tx, ex)) := by
  obtain ⟨h1, h2⟩ := h
  by_cases hp : isTriggerPress cfg ex = true
  · -- a trigger press: a fresh session opens
    have hstep : stepState cfg s (tx, ex) =
        { super_pressed := true, super_press_time := tx,
          other_key_pressed := false } := by
      simp [stepState, handle_event_press cfg tx s ex hp]
    rw [hstep]
    refine ⟨⟨fun _ => ⟨tx, [], tr, ex, rfl, hp, by simp⟩, fun _ => rfl⟩, ?_⟩
    rintro tp zs ⟨ys, e, heq, hpe, hclean⟩
    rcases append_singleton_split heq with ⟨-, hee, hzs⟩ | ⟨zs', hzs, -⟩
    · injection hee with htp hex
      subst hzs htp
      exact ⟨rfl, rfl, by simp⟩
    · exfalso
      have hmem : (tx, ex) ∈ zs := by simp [hzs]
      exact absurd hp (by simp [(hclean _ hmem).1])
  · by_cases hr : isTriggerRelease cfg ex = true
    · -- a trigger release: any open session closes
      have hsp : (stepState cfg s (tx, ex)).super_pressed = false := by
        cases hsup : s.super_pressed with
        | false => simp [stepState, handle_event_release_idle cfg tx s ex hr hsup, hsup]
        | true => simp [stepState, handle_event_release_down cfg tx s ex hr hsup]
      have hnone : ∀ tp zs, ¬ OpenSession cfg (tr ++ [(tx, ex)]) tp zs := by
        rintro tp zs ⟨ys, e, heq, hpe, hclean⟩
        rcases append_singleton_split heq with ⟨-, hee, -⟩ | ⟨zs', hzs, -⟩
        · injection hee with htp hex
          exact hp (hex ▸ hpe)
        · have hmem : (tx, ex) ∈ zs := by simp [hzs]
          exact absurd hr (by simp [(hclean _ hmem).2])
      refine ⟨⟨fun hc => absurd hc (by simp [hsp]), ?_⟩, ?_⟩
      · rintro ⟨tp, zs, hos⟩
        exact absurd hos (hnone tp zs)
      · intro tp zs hos
        exact absurd hos (hnone tp zs)
    · -- any other event: the session (if any) stays open
      have hstep : stepState cfg s (tx, ex) =
          { s with other_key_pressed :=
              s.other_key_pressed || (s.super_pressed && isInterfering cfg ex) } := by
        have hpf : isTriggerPress cfg ex = false := by simpa using hp
        have hrf : isTriggerRelease cfg ex = false := by simpa using hr
        simp [stepState, handle_event_other cfg tx s ex hpf hrf]
      have hpf : isTriggerPress cfg ex = false := by simpa using hp
      have hrf : isTriggerRelease cfg ex = false := by simpa using hr
      rw [hstep]
      constructor
      · simp only []
        rw [h1]
        constructor
        · rintro ⟨tp, zs, ys, e, heq, hpe, hclean⟩
          refine ⟨tp, zs ++ [(tx, ex)], ys, e, by simp [heq], hpe, ?_⟩
          intro p hpmem
          rcases List.mem_append.mp hpmem with hin | hin
          · exact hclean p hin
          · obtain rfl : p = (tx, ex) := by simpa using hin
            exact ⟨hpf, hrf⟩
        · rintro ⟨tp, zs, ys, e, heq, hpe, hclean⟩
          rcases append_singleton_split heq with ⟨-, hee, -⟩ | ⟨zs', hzs, htr⟩
          · exfalso
            injection hee with htp hex
            exact hp (hex ▸ hpe)
          · refine ⟨tp, zs', ys, e, htr, hpe, fun p hpmem => hclean p ?_⟩
            simp [hzs, hpmem]
      · rintro tp zs ⟨ys, e, heq, hpe, hclean⟩
        rcases append_singleton_split heq with ⟨-, hee, -⟩ | ⟨zs', hzs, htr⟩
        · exfalso
          injection hee with htp hex
          exact hp (hex ▸ hpe)
        · have hclean' : ∀ p ∈ zs', isTriggerPress cfg p.2 = false ∧
              isTriggerRelease cfg p.2 = false := by
            intro p hpmem
            exact hclean p (by simp [hzs, hpmem])
          obtain ⟨hsp, hpt, hok⟩ := h2 tp zs' ⟨ys, e, htr, hpe, hclean'⟩
          subst hzs
          refine ⟨hsp, hpt, ?_⟩
          simp [hok, hsp, List.any_append]

theorem inv_run (cfg : Config) (tr : List Timed) :
    Inv cfg tr (runState cfg initState tr) := by
  induction tr using List.reverseRecOn with
  | nil => exact inv_nil cfg
  | append_singleton l x ih =>
    obtain ⟨tx, ex⟩ := x
    rw [runState_append]
    exact inv_step cfg l (runState cfg initState l) tx ex ih

/-! ## Claim theorems -/

/-- C1: for every event trace processed by the tap detector, a trigger-key
release fires injection (invokes the virtual injector) iff the trace ends
in a matching trigger-key press — no other trigger-key edge in between —
with no interfering event (other key/button press, non-zero wheel delta)
strictly between press and release, and the elapsed time `t - tp` is
strictly below the configured tap timeout. -/
theorem C1_release_fires_iff (cfg : Config) (tr : List Timed) (t : ℚ)
    (e : InputEvent) (hrel : isTriggerRelease cfg e = true) :
    (handle_event cfg t (runState cfg initState tr) e).2 = true ↔
      ∃ ys tp ep zs, tr = ys ++ (tp, ep) :: zs ∧ isTriggerPress cfg ep = true ∧
        (∀ p ∈ zs, isTriggerPress cfg p.2 = false ∧
          isTriggerRelease cfg p.2 = false ∧ isInterfering cfg p.2 = false) ∧
        t - tp < cfg.tap_timeout := by
  obtain ⟨h1, h2⟩ := inv_run cfg tr
  constructor
  · intro hfire
    cases hsup : (runState cfg initState tr).super_pressed with
    | false =>
      rw [handle_event_release_idle cfg t _ e hrel hsup] at hfire
      exact absurd hfire (by simp)
    | true =>
      obtain ⟨tp, zs, ys, ep, heq, hpe, hclean⟩ := h1.mp hsup
      obtain ⟨-, hpt, hok⟩ := h2 tp zs ⟨ys, ep, heq, hpe, hclean⟩
      rw [handle_event_release_down cfg t _ e hrel hsup] at hfire
      simp only [Bool.and_eq_true, Bool.not_eq_true', decide_eq_true_eq] at hfire
      obtain ⟨hokf, hlt⟩ := hfire
      rw [hpt] at hlt
      have hint : zs.any (fun p => isInterfering cfg p.2) = false := by
        rw [← hok]; exact hokf
      refine ⟨ys, tp, ep, zs, heq, hpe, ?_, hlt⟩
      intro p hpmem
      refine ⟨(hclean p hpmem).1, (hclean p hpmem).2, ?_⟩
      simp only [List.any_eq_false] at hint
      simpa using hint p hpmem
  · rintro ⟨ys, tp, ep, zs, heq, hpe, hquiet, ht⟩
    have hclean : ∀ p ∈ zs, isTriggerPress cfg p.2 = false ∧
        isTriggerRelease cfg p.2 = false :=
      fun p hq => ⟨(hquiet p hq).1, (hquiet p hq).2.1⟩
    obtain ⟨hsup, hpt, hok⟩ := h2 tp zs ⟨ys, ep, heq, hpe, hclean⟩
    rw [handle_event_release_down cfg t _ e hrel hsup]
    have hint : zs.any (fun p => isInterfering cfg p.2) = false := by
      simp only [List.any_eq_false]
      intro p hq
      simp [(hquiet p hq).2.2]
    simp [hok, hint, hpt, ht]

/-- Witness for C1: press at clock 0, release at clock 3/10, timeout 1/2,
no intervening events — injection fires. -/
theorem C1_release_fires_iff_witness :
    isTriggerRelease stdCfg superRelease = true ∧
    (handle_event stdCfg (3/10)
      (runState stdCfg initState [((0 : ℚ), superPress)]) superRelease).2 = true := by
  refine ⟨by decide, ?_⟩
  refine (C1_release_fires_iff stdCfg [((0 : ℚ), superPress)] (3/10) superRelease
    (by decide)).mpr ?_
  exact ⟨[], 0, superPress, [], rfl, by decide, by simp, by norm_num [stdCfg]⟩

/-- C2: the claim says press/release timestamps come from a monotonic clock
so that wall-clock adjustments cannot change the elapsed duration; the code
calls `time.time()` (wall clock, lines 235 and 241).  Two runs with the
same monotonic elapsed time (1/10 s, below the 1/2 s timeout) but a +10 s
wall-clock step between press and release decide differently: the
unadjusted run fires, the adjusted run does not. -/
theorem C2_wall_clock_sensitivity :
    (handle_event stdCfg (1/10)
      ((handle_event stdCfg 0 initState superPress).1) superRelease).2 = true ∧
    (handle_event stdCfg (101/10)
      ((handle_event stdCfg 0 initState superPress).1) superRelease).2 = false := by
  have hpress : (handle_event stdCfg 0 initState superPress).1 =
      { super_pressed := true, super_press_time := 0,
        other_key_pressed := false } := rfl
  rw [hpress]
  constructor
  · rw [handle_event_release_down stdCfg (1/10) _ superRelease (by decide) rfl]
    norm_num [stdCfg]
  · rw [handle_event_release_down stdCfg (101/10) _ superRelease (by decide) rfl]
    norm_num [stdCfg]

/-- C3 counterexample: a parseable configuration file that supplies
`tap_timeout = 0` yields a configuration snapshot whose timeout is not
strictly positive — `load_config` performs no validation. -/
theorem C3_counterexample :
    ¬ (0 < (load_config (ConfigFile.parsed none none (some 0))).tap_timeout) := by
  decide

/-- C3 amended: the timeout produced by `load_config` is strictly positive
iff every `tap_timeout` value the configuration file supplies is strictly
positive; when the file is absent, unreadable, or omits the field, the
default 1/2 is used and the invariant holds. -/
theorem C3_amended_timeout_positive (cf : ConfigFile) :
    0 < (load_config cf).tap_timeout ↔
      ∀ v, suppliedTapTimeout cf = some v → 0 < v := by
  cases cf with
  | absent =>
    show (0:ℚ) < DEFAULT_TAP_TIMEOUT ↔ ∀ v, (none : Option ℚ) = some v → 0 < v
    exact ⟨fun _ v hv => (by cases hv),
      fun _ => by norm_num [DEFAULT_TAP_TIMEOUT]⟩
  | unreadable =>
    show (0:ℚ) < DEFAULT_TAP_TIMEOUT ↔ ∀ v, (none : Option ℚ) = some v → 0 < v
    exact ⟨fun _ v hv => (by cases hv),
      fun _ => by norm_num [DEFAULT_TAP_TIMEOUT]⟩
  | parsed t i o =>
    cases o with
    | none =>
      show (0:ℚ) < DEFAULT_TAP_TIMEOUT ↔ ∀ v, (none : Option ℚ) = some v → 0 < v
      exact ⟨fun _ v hv => (by cases hv),
        fun _ => by norm_num [DEFAULT_TAP_TIMEOUT]⟩
    | some v =>
      simp [load_config, suppliedTapTimeout]

/-- C4 counterexample: from a reachable TriggerDown state with the
interference flag set (press at 0, interfering key press at 1/10), a second
trigger-key press edge at 2/10 — an event that is not the matching release —
clears the flag while the detector stays in TriggerDown.  So it is not true
that every event before the matching release leaves the flag set. -/
theorem C4_counterexample :
    ((runState stdCfg initState
        [((0 : ℚ), superPress), ((1/10 : ℚ), aPress)]).super_pressed = true ∧
      (runState stdCfg initState
        [((0 : ℚ), superPress), ((1/10 : ℚ), aPress)]).other_key_pressed = true) ∧
    ((handle_event stdCfg (2/10)
        (runState stdCfg initState [((0 : ℚ), superPress), ((1/10 : ℚ), aPress)])
        superPress).1.super_pressed = true ∧
      (handle_event stdCfg (2/10)
        (runState stdCfg initState [((0 : ℚ), superPress), ((1/10 : ℚ), aPress)])
        superPress).1.other_key_pressed = false) := by
  decide

/-- C4 amended: once the interference flag is set while the trigger key is
down, every subsequent event other than a trigger-key press edge (which
restarts the session, cf. C9) and the trigger-key release (which ends it)
keeps the detector in TriggerDown with the flag still set and the press
timestamp unchanged; in particular release events of the interfering key
have no effect on the flag. -/
theorem C4_amended_flag_sticky (cfg : Config) (s : DaemonState)
    (tr : List Timed) (hs : s.super_pressed = true)
    (hf : s.other_key_pressed = true)
    (hq : ∀ p ∈ tr, isTriggerPress cfg p.2 = false ∧
      isTriggerRelease cfg p.2 = false) :
    (runState cfg s tr).super_pressed = true ∧
    (runState cfg s tr).other_key_pressed = true ∧
    (runState cfg s tr).super_press_time = s.super_press_time := by
  induction tr generalizing s with
  | nil => exact ⟨hs, hf, rfl⟩
  | cons x xs ih =>
    obtain ⟨hpx, hrx⟩ := hq x (by simp)
    have hstep : stepState cfg s x =
        { s with other_key_pressed :=
            s.other_key_pressed || (s.super_pressed && isInterfering cfg x.2) } := by
      simp [stepState, handle_event_other cfg x.1 s x.2 hpx hrx]
    have hrun : runState cfg s (x :: xs) = runState cfg (stepState cfg s x) xs := rfl
    rw [hrun, hstep]
    have ih' := ih { s with other_key_pressed :=
        s.other_key_pressed || (s.super_pressed && isInterfering cfg x.2) }
      (by simp [hs]) (by simp [hf])
      (fun p hpm => hq p (List.mem_cons_of_mem x hpm))
    exact ⟨ih'.1, ih'.2.1, by rw [ih'.2.2]⟩

/-- Witness for C4 amended: flag set, one interfering-key release follows —
the flag stays set and the timestamp is untouched. -/
theorem C4_amended_flag_sticky_witness :
    (runState stdCfg
      { super_pressed := true, super_press_time := 0, other_key_pressed := true }
      [((1/10 : ℚ), aRelease)]).super_pressed = true ∧
    (runState stdCfg
      { super_pressed := true, super_press_time := 0, other_key_pressed := true }
      [((1/10 : ℚ), aRelease)]).other_key_pressed = true ∧
    (runState stdCfg
      { super_pressed := true, super_press_time := 0, other_key_pressed := true }
      [((1/10 : ℚ), aRelease)]).super_press_time =
      ({ super_pressed := true, super_press_time := 0,
         other_key_pressed := true } : DaemonState).super_press_time :=
  C4_amended_flag_sticky stdCfg _ _ rfl rfl (by decide)

/-- C5: a trigger-key auto-repeat event (value 2) received while already in
TriggerDown leaves the whole detector state unchanged — in particular the
press timestamp is kept and the interference flag is not set — and fires no
injection. -/
theorem C5_repeat_is_noop (cfg : Config) (s : DaemonState) (t : ℚ) (c : Nat)
    (hc : c ∈ cfg.superKeys) (_hs : s.super_pressed = true) :
    handle_event cfg t s { etype := EV_KEY, code := c, value := 2 } =
      (s, false) := by
  simp [handle_event, hc]

/-- Witness for C5: an auto-repeat of the default trigger key in a concrete
TriggerDown state. -/
theorem C5_repeat_is_noop_witness :
    handle_event stdCfg 1
      { super_pressed := true, super_press_time := 0, other_key_pressed := false }
      { etype := EV_KEY, code := KEY_LEFTMETA, value := 2 } =
      ({ super_pressed := true, super_press_time := 0,
         other_key_pressed := false }, false) :=
  C5_repeat_is_noop stdCfg _ 1 KEY_LEFTMETA (by decide) rfl

/-- C9: a trigger-key press edge (value 1) received while the detector is
already in TriggerDown restarts the session: the press timestamp is
overwritten with the current clock reading and the interference flag is
cleared, exactly as on a first press. -/
theorem C9_press_restarts_session (cfg : Config) (s : DaemonState) (t : ℚ)
    (c : Nat) (hc : c ∈ cfg.superKeys) (_hs : s.super_pressed = true) :
    handle_event cfg t s { etype := EV_KEY, code := c, value := 1 } =
      ({ super_pressed := true, super_press_time := t,
         other_key_pressed := false }, false) := by
  simp [handle_event, hc]

/-- Witness for C9: a duplicate press edge in a TriggerDown state with the
flag set overwrites the timestamp (0 becomes 5) and clears the flag. -/
theorem C9_press_restarts_session_witness :
    handle_event stdCfg 5
      { super_pressed := true, super_press_time := 0, other_key_pressed := true }
      { etype := EV_KEY, code := KEY_LEFTMETA, value := 1 } =
      ({ super_pressed := true, super_press_time := 5,
         other_key_pressed := false }, false) :=
  C9_press_restarts_session stdCfg _ 5 KEY_LEFTMETA (by decide) rfl

/-- C6: adding a device identifier to the device table is idempotent —
adding twice equals adding once; adding an identifier already present
changes nothing (no new monitor task, no handle replacement); key
uniqueness is preserved, so an identifier appears at most once, and exactly
once whenever it is present after the add. -/
theorem C6_add_device_idempotent (openDev : String → Option Device)
    (st : DevTable) (path : String)
    (hnd : (st.devices.map Prod.fst).Nodup) :
    add_device openDev (add_device openDev st path) path =
      add_device openDev st path ∧
    ((add_device openDev st path).devices.map Prod.fst).Nodup ∧
    (path ∈ st.devices.map Prod.fst → add_device openDev st path = st) ∧
    ((add_device openDev st path).devices.map Prod.fst).count path ≤ 1 ∧
    (path ∈ (add_device openDev st path).devices.map Prod.fst →
      ((add_device openDev st path).devices.map Prod.fst).count path = 1) := by
  have hmemcase : ∀ st' : DevTable, path ∈ st'.devices.map Prod.fst →
      add_device openDev st' path = st' := by
    intro st' h
    unfold add_device
    rw [if_pos h]
  by_cases hmem : path ∈ st.devices.map Prod.fst
  · have hadd : add_device openDev st path = st := hmemcase st hmem
    refine ⟨by rw [hadd, hadd], by rw [hadd]; exact hnd, fun _ => hadd, ?_, ?_⟩
    · rw [hadd]
      exact List.nodup_iff_count_le_one.mp hnd path
    · intro h
      rw [hadd] at h ⊢
      exact List.count_eq_one_of_mem hnd h
  · have hnoopcase : openDev path = none ∨
        (∃ d, openDev path = some d ∧ is_valid_device d = false) →
        add_device openDev st path = st := by
      rintro (ho | ⟨d, ho, hv⟩)
      · unfold add_device
        rw [if_neg hmem]
        simp only [ho]
      · unfold add_device
        rw [if_neg hmem]
        simp only [ho]
        simp [hv]
    rcases hopen : openDev path with _ | d
    · have hadd : add_device openDev st path = st := hnoopcase (Or.inl hopen)
      refine ⟨by rw [hadd, hadd], by rw [hadd]; exact hnd,
        fun h => absurd h hmem, ?_, ?_⟩
      · rw [hadd]
        exact List.nodup_iff_count_le_one.mp hnd path
      · intro h
        rw [hadd] at h ⊢
        exact List.count_eq_one_of_mem hnd h
    · by_cases hval : is_valid_device d = true
      · have hadd : add_device openDev st path =
            { devices := st.devices ++ [(path, d)]
              device_tasks := st.device_tasks ++ [(path, st.nextTask)]
              nextTask := st.nextTask + 1 } := by
          unfold add_device
          rw [if_neg hmem]
          simp only [hopen]
          rw [if_pos hval]
        have hkeys : (add_device openDev st path).devices.map Prod.fst =
            st.devices.map Prod.fst ++ [path] := by
          simp [hadd]
        have hnd' : ((add_device openDev st path).devices.map Prod.fst).Nodup := by
          rw [hkeys]
          exact List.Nodup.append hnd (List.nodup_singleton path)
            (by simpa using hmem)
        have hcount : ((add_device openDev st path).devices.map Prod.fst).count
            path = 1 := by
          rw [hkeys, List.count_append, List.count_eq_zero.mpr hmem]
          simp
        refine ⟨?_, hnd', fun h => absurd h hmem, le_of_eq hcount,
          fun _ => hcount⟩
        exact hmemcase _ (by rw [hkeys]; simp)
      · have hadd : add_device openDev st path = st :=
          hnoopcase (Or.inr ⟨d, hopen, by simpa using hval⟩)
        refine ⟨by rw [hadd, hadd], by rw [hadd]; exact hnd,
          fun h => absurd h hmem, ?_, ?_⟩
        · rw [hadd]
          exact List.nodup_iff_count_le_one.mp hnd path
        · intro h
          rw [hadd] at h ⊢
          exact List.count_eq_one_of_mem hnd h

/-- A concrete eligible keyboard-like device for the C6 witness. -/
def sampleDevice : Device :=
  { name := "USB Keyboard", info := { bustype := 3 }, hasEvKey := true,
    keyCaps := [KEY_A, KEY_SPACE], hasEvRel := false, queryFails := false }

/-- Witness for C6 at the empty table with a device that opens and is
eligible. -/
theorem C6_add_device_idempotent_witness :
    add_device (fun _ => some sampleDevice)
        (add_device (fun _ => some sampleDevice)
          { devices := [], device_tasks := [], nextTask := 0 }
          "/dev/input/event0")
        "/dev/input/event0" =
      add_device (fun _ => some sampleDevice)
        { devices := [], device_tasks := [], nextTask := 0 }
        "/dev/input/event0" ∧
    ((add_device (fun _ => some sampleDevice)
        { devices := [], device_tasks := [], nextTask := 0 }
        "/dev/input/event0").devices.map Prod.fst).Nodup ∧
    ("/dev/input/event0" ∈ ({ devices := [], device_tasks := [], nextTask := 0 } :
        DevTable).devices.map Prod.fst →
      add_device (fun _ => some sampleDevice)
        { devices := [], device_tasks := [], nextTask := 0 }
        "/dev/input/event0" =
        { devices := [], device_tasks := [], nextTask := 0 }) ∧
    ((add_device (fun _ => some sampleDevice)
        { devices := [], device_tasks := [], nextTask := 0 }
        "/dev/input/event0").devices.map Prod.fst).count "/dev/input/event0" ≤ 1 ∧
    ("/dev/input/event0" ∈ (add_device (fun _ => some sampleDevice)
        { devices := [], device_tasks := [], nextTask := 0 }
        "/dev/input/event0").devices.map Prod.fst →
      ((add_device (fun _ => some sampleDevice)
        { devices := [], device_tasks := [], nextTask := 0 }
        "/dev/input/event0").devices.map Prod.fst).count
        "/dev/input/event0" = 1) :=
  C6_add_device_idempotent (fun _ => some sampleDevice)
    { devices := [], device_tasks := [], nextTask := 0 }
    "/dev/input/event0" (by simp)

/-- C7: the device classifier accepts a device iff no rejection condition
holds (query error, the daemon's own virtual device name, the conflicting
proxy-device name occurring in the name, the virtual bus) and the device is
keyboard-like (letter key `KEY_A` and `KEY_SPACE` among its key
capabilities) or pointer-like (relative-motion capability).  The embedding
is a pure function of the device metadata, so it has no side effects on the
device or on daemon state. -/
theorem C7_classifier_characterization (d : Device) :
    is_valid_device d = true ↔
      (d.queryFails = false ∧ d.name ≠ "Super Activity Daemon" ∧
        containsProxy d.name = false ∧ d.info.bustype ≠ BUS_VIRTUAL) ∧
      ((d.hasEvKey = true ∧ KEY_A ∈ d.keyCaps ∧ KEY_SPACE ∈ d.keyCaps) ∨
        d.hasEvRel = true) := by
  obtain ⟨nm, ⟨bt⟩, hk, kc, hr, qf⟩ := d
  simp only [is_valid_device]
  split_ifs with h1 h2 h3 h4 <;>
    simp_all [and_assoc]

/-- C8: with no virtual uinput device (creation failed at startup, the
exception is caught and `self.ui` stays `None`), the injector emits no
events at all, while the tap-detector transition and the tap-confirmation
decision of every daemon step are identical to the ones taken with a
working device: detection runs, injection is disabled. -/
theorem C8_injection_disabled (cfg : Config) (now : ℚ) (s : DaemonState)
    (e : InputEvent) :
    trigger_activity_view none cfg.triggerKeys = [] ∧
    (daemonStep cfg none now s e).2.2 = [] ∧
    (daemonStep cfg none now s e).1 = (daemonStep cfg (some ()) now s e).1 ∧
    (daemonStep cfg none now s e).2.1 = (daemonStep cfg (some ()) now s e).2.1 := by
  refine ⟨rfl, ?_, rfl, rfl⟩
  simp [daemonStep, trigger_activity_view]

/-- C10: a configuration file whose `trigger_key` or `injection_key` string
is outside the enumerated `KEY_MAP` set is accepted silently: `load_config`
substitutes the default codes (`KEY_LEFTMETA` for the trigger,
`KEY_LEFTCTRL` for the injection key) instead of rejecting the
configuration. -/
theorem C10_unknown_key_names_default (tk ik : String) (tt : Option ℚ)
    (htk : KEY_MAP tk = none) (hik : KEY_MAP ik = none) :
    (load_config (ConfigFile.parsed (some tk) (some ik) tt)).superKeys =
      [KEY_LEFTMETA] ∧
    (load_config (ConfigFile.parsed (some tk) (some ik) tt)).triggerKeys =
      [KEY_LEFTCTRL] := by
  simp [load_config, htk, hik]

/-- Witness for C10 at an unrecognized key name. -/
theorem C10_unknown_key_names_default_witness :
    (load_config (ConfigFile.parsed (some "KEY_COFFEE") (some "KEY_COFFEE")
      none)).superKeys = [KEY_LEFTMETA] ∧
    (load_config (ConfigFile.parsed (some "KEY_COFFEE") (some "KEY_COFFEE")
      none)).triggerKeys = [KEY_LEFTCTRL] :=
  C10_unknown_key_names_default "KEY_COFFEE" "KEY_COFFEE" none
    (by decide) (by decide)

end SuperActivityDaemon
